import Mathlib

/-!
Verification development for the `line-gpt-bot` webhook server (`src/server.js`,
the hardened revision: the one with signature verification, rate limiting and
per-user state in the `diagnosis_logs` table).

The JavaScript source is shallowly embedded: pure fragments become Lean
functions on `String` / `List Char`, the per-event webhook handler becomes a
pure function from the pre-read user state (plus oracles for the impure
inputs: the rate-limiter verdict, the GPT completion, the random diagnosis
number) to a record of its observable effects (outbound sends, the Supabase
update payload, the number of generation calls).  Numeric `extra_credits`
values (2, 1, 0.5, 0.3, 0) are embedded as rationals, exactly the numerals of
the source.
-/

namespace LineBot

/-! ## JavaScript string primitives

`jsWs` lists the JavaScript `\s` / `String.prototype.trim` whitespace code
points that can actually occur in chat text (ASCII whitespace, NBSP,
ideographic space, BOM). -/

def jsWs (c : Char) : Bool :=
  c = ' ' || c = '\t' || c = '\n' || c = '\r' ||
  c = '\x0b' || c = '\x0c' || c = '\u00A0' || c = '\u3000' || c = '\uFEFF'

/-- JavaScript `String.prototype.trim` on a character list. -/
def jsTrimList (l : List Char) : List Char :=
  ((l.dropWhile jsWs).reverse.dropWhile jsWs).reverse

/-- JavaScript `String.prototype.trim`. -/
def jsTrim (s : String) : String :=
  String.mk (jsTrimList s.toList)

/-- Characters strictly after the first occurrence of `m`, or `none` if `m`
does not occur (the anchor step of matching `/m.../`). -/
def afterChar (m : Char) : List Char → Option (List Char)
  | [] => none
  | c :: cs => if c = m then some cs else afterChar m cs

/-- Skip a single full-width or half-width colon, if one is the next
character (the `[:：]?` part of the extraction regexes). -/
def skipOptColon : List Char → List Char
  | [] => []
  | c :: cs => if c = ':' || c = '：' then cs else c :: cs

/-! ## `extractUserData` (server.js ❶ lines 683–713)

Each field is matched by `/Ⓝ.*?[:：]?\s*(.*?)(?=\n|$)/s`.  Operationally
(leftmost match, lazy `.*?` = 0 characters since the tail can always match,
greedy-optional `[:：]?`, greedy `\s*`, lazy capture up to the first `\n` or
the end of the string): anchor at the first occurrence of the marker, skip an
optional colon directly after it, skip the whitespace run (which, `\s`
matching `\n`, can cross line breaks), then capture up to the next `\n` or
the end.  The captured value is `.trim()`ed, an echoed label prefix is
stripped by `/^(お名前|生年月日.*?|生まれた時間.*?|MBTI.*?|性別.*?)[:：]?\s*/i`
(the lazy `.*?` contributes nothing because the rest of the pattern is
nullable), and an empty result becomes `null` (`obj[k] = value || null`). -/

def captureField (m : Char) (text : List Char) : Option (List Char) :=
  (afterChar m text).map fun rest =>
    ((skipOptColon rest).dropWhile jsWs).takeWhile (fun c => c ≠ '\n')

/-- Case-insensitive literal-prefix strip (the `/i` flag; only `MBTI` is
case-sensitive material among the five labels). -/
def stripCaseless : List Char → List Char → Option (List Char)
  | [], rest => some rest
  | _ :: _, [] => none
  | p :: ps, c :: cs => if p.toLower = c.toLower then stripCaseless ps cs else none

/-- The five label literals of the strip regex, in alternation order. -/
def labelLiterals : List (List Char) :=
  ["お名前".toList, "生年月日".toList, "生まれた時間".toList, "MBTI".toList, "性別".toList]

/-- First label literal that is a prefix of `v`, removed. -/
def firstLabelStrip : List (List Char) → List Char → Option (List Char)
  | [], _ => none
  | l :: ls, v =>
    match stripCaseless l v with
    | some rest => some rest
    | none => firstLabelStrip ls v

/-- The `value.replace(/^(お名前|…)[:：]?\s*/i, '')` step. -/
def stripLabelText (v : List Char) : List Char :=
  match firstLabelStrip labelLiterals v with
  | none => v
  | some rest => (skipOptColon rest).dropWhile jsWs

/-- Value of one numbered field: `null` when the marker is absent or the
processed value is empty. -/
def fieldValue (m : Char) (text : String) : Option String :=
  match captureField m text.toList with
  | none => none
  | some cap =>
    let v := stripLabelText (jsTrimList cap)
    if v.isEmpty then none else some (String.mk v)

/-- The record `extractUserData` always returns: exactly the five keys of the
source object, each a string or `null`. -/
structure ExtractedData where
  name : Option String
  birthdate : Option String
  birthtime : Option String
  mbti : Option String
  gender : Option String
deriving DecidableEq, Repr

/-- `extractUserData(text)` (server.js lines 683–713). -/
def extractUserData (text : String) : ExtractedData :=
  { name := fieldValue '①' text
    birthdate := fieldValue '②' text
    birthtime := fieldValue '③' text
    mbti := fieldValue '④' text
    gender := fieldValue '⑤' text }

/-! ## Session store data model

One row of `diagnosis_logs` per `line_user_id` (the fields the handler reads
or writes; `created_at` / `updated_at` timestamps are set on every write and
carry no decision logic, so they are elided). -/

/-- A `diagnosis_logs` row as the handler sees it after
`getOrCreateUserState` (a fresh row has `extra_credits = 2`,
`session_closed = false` and every other column `null`). -/
structure UserState where
  extra_credits : ℚ
  session_closed : Bool
  input_error_count : Option Nat
  name : Option String
  birthdate : Option String
  birthtime : Option String
  gender : Option String
  mbti : Option String
  self_analysis_result : Option String
  diagnosis_number : Option String
  tarot_concern : Option String
  tarot_result : Option String
  lucky_advice : Option String
deriving DecidableEq, Repr

/-- The `WHERE` clause of a Supabase `.update(...)`.  Every update in the
source is keyed by `.eq('line_user_id', userId)` alone;
`expected_extra_credits` records a compare-and-swap precondition on the
phase/credits field, which the source never supplies. -/
structure UpdateCond where
  line_user_id : Bool
  expected_extra_credits : Option ℚ := none
deriving DecidableEq, Repr

/-- A Supabase `.update({...})` payload: for each column, `none` = column not
mentioned, `some v` = column set to `v` (text columns can be set to `null`,
hence the nested `Option`). -/
structure UpdatePayload where
  cond : UpdateCond
  name : Option (Option String) := none
  birthdate : Option (Option String) := none
  birthtime : Option (Option String) := none
  gender : Option (Option String) := none
  mbti : Option (Option String) := none
  self_analysis_result : Option (Option String) := none
  diagnosis_number : Option (Option String) := none
  tarot_concern : Option (Option String) := none
  tarot_result : Option (Option String) := none
  lucky_advice : Option (Option String) := none
  extra_credits : Option ℚ := none
  session_closed : Option Bool := none
  input_error_count : Option Nat := none
deriving DecidableEq, Repr

/-- Effect of committing an update payload on the stored row (the source's
updates carry no precondition beyond the user id, so they always commit). -/
def applyUpdate (s : UserState) (u : UpdatePayload) : UserState :=
  { extra_credits := u.extra_credits.getD s.extra_credits
    session_closed := u.session_closed.getD s.session_closed
    input_error_count := u.input_error_count.map some |>.getD s.input_error_count
    name := u.name.getD s.name
    birthdate := u.birthdate.getD s.birthdate
    birthtime := u.birthtime.getD s.birthtime
    gender := u.gender.getD s.gender
    mbti := u.mbti.getD s.mbti
    self_analysis_result := u.self_analysis_result.getD s.self_analysis_result
    diagnosis_number := u.diagnosis_number.getD s.diagnosis_number
    tarot_concern := u.tarot_concern.getD s.tarot_concern
    tarot_result := u.tarot_result.getD s.tarot_result
    lucky_advice := u.lucky_advice.getD s.lucky_advice }

/-! ## Canned messages (server.js ❽ and the webhook handler) -/

/-- Reply when `checkRateLimit` fails (line 344). -/
def rateLimitReplyMsg : String :=
  "申し訳ございません。少しお時間をおいてから再度お試しください。"

/-- Reply when `getOrCreateUserState` returns `null` (line 352), and the
generic reply of the webhook's outer `catch` (line 672). -/
def systemErrorMsg : String :=
  "システムエラーが発生しました。しばらく時間をおいて再度お試しください。"

/-- `FOLLOWUP_MSG` (lines 151–178). -/
def FOLLOWUP_MSG : String :=
  "ここまでお付き合いいただき\nありがとうございました🕊️\n\nもし私からのメッセージが\nあなたの心にほんの少しでも灯をともすものであったなら\nとても嬉しく思います。\n\n心に残ったフレーズや、気づいたことがあればぜひ聞かせてくださいね。\n\n────────────\n\nもっと深く自分を知りたくなったとき、さらに話を聞いてほしくなったときは、いつでも私にご相談ください。\n\n💫 ココナラでは初回500円〜ご相談いただけます\n▶︎ https://coconala.com/invite/CR0VNB\n（新規登録で1,000円分のポイントプレゼント中）\n\n🌙 公式LINEでは\n・無料タロット診断\n・ココナラ限定クーポン\n・心が軽くなるメッセージ\n\nなどを不定期でお届けします。\nぜひこのまま、ゆるやかにつながっていてくださいね。\n\nあなたの毎日に優しい光が降り注ぎますように ✨\n\n未来予報士ユメノアイ"

/-- The closing message sent in the 特別なご案内 branch (lines 466–468):
`FOLLOWUP_MSG` plus the share invitation line (its quick-reply share buttons
are UI attachments of the same single message). -/
def announcementMsg : String :=
  FOLLOWUP_MSG ++ "\n\n✨ もしよろしければ、お友達にも教えてあげてくださいね"

/-- The itemized missing-fields reply of the incomplete-form branch
(lines 633–636). -/
def missingFieldsMsg (missing : List String) : String :=
  "入力内容を確認させていただきました✨\n\n以下の項目が見つかりませんでした：\n"
  ++ String.intercalate "\n" (missing.map fun f => "・" ++ f)
  ++ "\n\nお手数ですが、もう一度すべての項目をご記入いただけますか？\n\n例）\n①田中花子\n②1990/01/01\n③14時30分\n④INFP\n⑤女性"

/-- The premium framing prepended to the tarot answer (lines 419–423). -/
def premiumTarotMsg (tarotAns : String) : String :=
  "あなたの想いに寄り添いながら\n3枚のカードが紡ぐ物語を\nお伝えいたします。\n\n" ++ tarotAns

/-- The premium framing of the self-analysis report (lines 562–568); the
`getTimeBasedGreeting()` value is computed by the source but not
interpolated. -/
def premiumReportMsg (diagNum nm analysisReport : String) : String :=
  diagNum ++ "\n\n" ++ nm ++ "さまのために\n心を込めて紡いだ\n特別な診断結果をお届けします。\n\n" ++ analysisReport

/-! ## `extractLuckyAdvice` (lines 767–789)

Matches `/【開運アドバイス】([\s\S]*?)$/` (capture = everything after the
first occurrence of the header) and wraps it; when the header is absent it
calls `generateLuckyAdvice(userName)` — a function defined nowhere in the
repository, so that path throws a `ReferenceError` at run time.  The embedding
returns `none` for that path. -/

/-- Exact literal-prefix strip (used where the source regex has no `/i`). -/
def stripExact : List Char → List Char → Option (List Char)
  | [], rest => some rest
  | _ :: _, [] => none
  | p :: ps, c :: cs => if p = c then stripExact ps cs else none

/-- Characters after the first occurrence of the pattern `p`, or `none`. -/
def afterFirstSeq (p : List Char) : List Char → Option (List Char)
  | [] => if p.isEmpty then some [] else none
  | c :: cs =>
    match stripExact p (c :: cs) with
    | some rest => some rest
    | none => afterFirstSeq p cs

/-- `extractLuckyAdvice(tarotResult, userName)`; `none` models the
`generateLuckyAdvice` `ReferenceError` path. -/
def extractLuckyAdvice (tarotResult userName : String) : Option String :=
  match afterFirstSeq "【開運アドバイス】".toList tarotResult.toList with
  | some rest =>
    some ("━━━━━━━━━━━━━━━\n✨ 今月の開運アドバイス ✨\n\n" ++ userName
      ++ "さまへ\nカードが示す特別なメッセージです\n\n" ++ String.mk (jsTrimList rest)
      ++ "\n\nこのアドバイスは、あなたの相談内容と\n引かれたカードから導き出された\n世界でひとつだけのメッセージです\n━━━━━━━━━━━━━━━")
  | none => none

/-! ## `callGPT` (server.js lines 854–912)

The axios call is abstracted by an oracle giving each attempt's outcome.
`callGPT` returns the string handed back to the caller together with the
number of attempts actually made and the list of back-off delays slept
between attempts. -/

/-- Outcome of one OpenAI API attempt: the completion text
`data.choices[0].message.content`, or a thrown error with its message. -/
inductive GPTOutcome where
  | success (content : String)
  | failure (errMsg : String)
deriving DecidableEq, Repr

def GPTOutcome.isFailure : GPTOutcome → Bool
  | .success _ => false
  | .failure _ => true

/-- `const maxRetries = 3` (line 859). -/
def maxRetries : Nat := 3

/-- `timeout: 30000` of the axios request config (line 881): the hard
per-call timeout in milliseconds. -/
def gptTimeoutMs : Nat := 30000

/-- The fixed string returned after the last failed attempt (line 904). -/
def apologyMsg : String := "診断中にエラーが発生しました。時間を置いて再試行してください。"

/-- `const delay = Math.min(1000 * Math.pow(2, attempt - 1), 5000)`
(line 908): the back-off slept after failed attempt number `attempt`. -/
def backoffDelay (attempt : Nat) : Nat := min (1000 * 2 ^ (attempt - 1)) 5000

/-- The retry loop of `callGPT`, `fuel` = attempts remaining
(`maxRetries - attempt + 1`).  Result: (returned string, attempts made,
delays slept). -/
def callGPTRun (oracle : Nat → GPTOutcome) : Nat → Nat → String × Nat × List Nat
  | _, 0 => (apologyMsg, 0, [])
  | attempt, fuel + 1 =>
    match oracle attempt with
    | .success content => (jsTrim content, 1, [])
    | .failure _ =>
      if fuel = 0 then (apologyMsg, 1, [])
      else
        let r := callGPTRun oracle (attempt + 1) fuel
        (r.1, r.2.1 + 1, backoffDelay attempt :: r.2.2)

/-- `callGPT(input)`: attempts start at 1. -/
def callGPT (oracle : Nat → GPTOutcome) : String × Nat × List Nat :=
  callGPTRun oracle 1 maxRetries

/-! ## Prompt builders (server.js lines 180–284)

`buildDateSystemPrompt` reads the wall clock; its `formatted` / `season`
values are parameters here.  The JS template literals are split at their
interpolation points, so where user data lands in each message is visible in
the definition. -/

/-- One element of the OpenAI `messages` array. -/
structure ChatMessage where
  role : String
  content : String
deriving DecidableEq, Repr

/-- `buildDateSystemPrompt()` (lines 181–187). -/
def buildDateSystemPrompt (formatted season : String) : ChatMessage :=
  { role := "system"
    content := "本日の日付は" ++ formatted ++ "（JST）、季節は" ++ season
      ++ "です。これを基準に鑑定してください。" }

/-- JS template-literal interpolation of a nullable value: `null` renders as
the string `"null"`. -/
def jsInterp (o : Option String) : String := o.getD "null"

/-- JS `x || '不明'` on a nullable string (the extractor never stores `""`,
so falsiness is exactly `null` here). -/
def orUnknown (o : Option String) : String := o.getD "不明"

/-- The system prompt of `SELF_ANALYSIS_MESSAGES` up to the `${d.name}`
interpolation (lines 196–215). -/
def selfAnalysisSystemPre : String :=
  "あなたは、未来予報士「アイ」として、四柱推命・算命学・九星気学・旧姓名判断・MBTI を総合的に使い、深層分析を行います。\n\n# 出力構成（必ずこの形式で）\n\n🔹 あなたの真の性格\n（生年月日と生まれ時間から読み取れる、変わることのない本質を1-2文で。具体的なエピソードを交えて）\n\n🔹 宿る星と運命の流れ  \n（現在の運気の流れと、今年〜来年にかけての大きな流れを1-2文で。希望を持てる内容に）\n\n🔹 天賦の才能\n（名前の響きやMBTIも参考に、まだ開花していない可能性を1-2文で。具体的な分野を示唆）\n\n🔹 気をつけるべきこと\n（バランスを整えるためのアドバイスを1-2文で。否定的にならず改善案として）\n\n🔹 あなただけの開運の鍵\n（総合的に見て、この人が幸せになるための具体的な行動を1-2文で）\n\nじつは… "

/-- The system prompt of `SELF_ANALYSIS_MESSAGES` after the `${d.name}`
interpolation (lines 215–226). -/
def selfAnalysisSystemSuf : String :=
  "さんのためだけに、特別なタロット占いもご用意しています。\n\nもし受け取ってみようと思ったときは、\n\n【特別プレゼント】\n\nと一言だけ、メッセージをくださいね。\n\n# 重要\n- 占術名は出さないが、深い分析に基づいた説得力のある内容に\n- 各項目は関連性を持たせ、一つの物語として読めるように\n- ポジティブな表現を心がけ、読後感が明るくなるように"

/-- The system ("instruction") component of the self-analysis request: the
user-supplied name is interpolated into it (line 215). -/
def selfAnalysisSystemContent (nm : String) : String :=
  selfAnalysisSystemPre ++ nm ++ selfAnalysisSystemSuf

/-- The user ("data") component of the self-analysis request
(lines 230–237). -/
def selfAnalysisUserContent (d : ExtractedData) : String :=
  "以下の診断情報をもとに、上記の形式とトーンで読み解いてください。\n\n【診断情報】\n名前："
  ++ jsInterp d.name ++ "\n生年月日：" ++ jsInterp d.birthdate ++ "\n出生時間："
  ++ orUnknown d.birthtime ++ "\n性別：" ++ orUnknown d.gender ++ "\nMBTI："
  ++ orUnknown d.mbti

/-- `SELF_ANALYSIS_MESSAGES(d)` (lines 189–240). -/
def SELF_ANALYSIS_MESSAGES (d : ExtractedData) (datePrompt : ChatMessage) : List ChatMessage :=
  [datePrompt,
   { role := "system", content := selfAnalysisSystemContent (jsInterp d.name) },
   { role := "user", content := selfAnalysisUserContent d }]

/-- The tarot system prompt up to the `${concern}` interpolation
(lines 250–264). -/
def tarotSystemPre : String :=
  "あなたは「未来予報士アイ」として、多くの人の心に寄り添ってきた熟練の占い師です。占い・霊視・カウンセリング領域の世界最高峰の専門家としてサポートすること。\n\n▼ 重要な指示：\n大アルカナ22枚（愚者から世界まで）から3枚を引いてください。\n必ず実在する大アルカナのカード名を使用すること。\n\n▼ 出力構成（必ず以下の形式で）：\n\n【今回引かれたカード】\n過去：カード名 - 正位置/逆位置\n現在：カード名 - 正位置/逆位置  \n未来：カード名 - 正位置/逆位置\n\n【カードが紡ぐあなたの物語】\nここに300-500文字で、相談内容「"

/-- The tarot system prompt after the `${concern}` interpolation
(lines 264–277). -/
def tarotSystemSuf : String :=
  "」に対する深い洞察を書いてください。\n\n重要な指針：\n- 相談者の悩みに直接答える形で物語を紡ぐ\n- どんなカードの組み合わせでも、必ず希望と可能性を見出す\n- ネガティブな意味のカードは「必要な学び」「成長の機会」として再解釈\n- 過去→現在→未来の流れを、一つの美しい成長物語として描く\n- 「あなたには〜する力がある」「この経験は〜という意味がある」など、肯定的なメッセージを織り込む\n- 相談者が「私のことを本当に理解してくれている」と感じる具体的な言葉を使う\n\n【開運アドバイス】\n🌙 ラッキーカラー：色の名前のみ\n🌙 ラッキーアイテム：アイテム名のみ\n🌙 開運アクション：短い行動のみ"

/-- The system ("instruction") component of the tarot request: the
user-supplied concern is interpolated into it (line 264). -/
def tarotSystemContent (concern : String) : String :=
  tarotSystemPre ++ concern ++ tarotSystemSuf

/-- `TAROT_MESSAGES(concern)` (lines 243–284); the handler always passes the
concern, so the `'相談内容なし'` default is never taken. -/
def TAROT_MESSAGES (concern : String) (datePrompt : ChatMessage) : List ChatMessage :=
  [datePrompt,
   { role := "system", content := tarotSystemContent concern },
   { role := "user", content := "相談内容：" ++ concern }]

/-! ## The per-event webhook handler (server.js lines 323–653)

`handleEvent` is the body of the `for (const ev of events)` loop for one text
message, as a pure function of:

* `limited` — the verdict of `checkRateLimit(userId)` (in-memory window);
* `st` — the row returned by `getOrCreateUserState` (`none` = store error);
* `raw` — `ev.message.text` (the handler itself applies `.trim()`);
* `gpt` — the string `callGPT` returns for the (at most one) generation call
  this event makes (see `callGPT` for its retry behaviour);
* `diagNum` — the `generateDiagnosisNumber()` value (clock + randomness).

Its result records the observable effects.  Quick-reply button lists attached
to a send are UI affordances of that same single message and are not modelled
separately; `updated_at`/`created_at` timestamps in update payloads are
elided. -/

/-- Observable effects of handling one event. -/
structure HandlerResult where
  /-- Texts of the outbound reply messages, in send order. -/
  sends : List String
  /-- The Supabase update issued, if any. -/
  update : Option UpdatePayload
  /-- Number of `callGPT` invocations. -/
  gptCalls : Nat
  /-- The handler threw and the webhook's outer `catch` took over
  (`generateLuckyAdvice` `ReferenceError` path). -/
  crashed : Bool := false
deriving DecidableEq, Repr

/-- The no-effect result (`continue` without acting). -/
def noopResult : HandlerResult := { sends := [], update := none, gptCalls := 0 }

/-- `/①|②|③|④|⑤/.test(text)` (line 607). -/
def hasNumberFormat (text : String) : Bool :=
  text.toList.any fun c => c = '①' || c = '②' || c = '③' || c = '④' || c = '⑤'

/-- `data.name && data.birthdate && data.gender` (line 516); the extractor
never stores `""`, so JS truthiness is `isSome`. -/
def hasAllInput (d : ExtractedData) : Bool :=
  d.name.isSome && d.birthdate.isSome && d.gender.isSome

/-- The `missingFields` list of the incomplete-form branch (lines 612–615). -/
def missingOf (d : ExtractedData) : List String :=
  (if d.name.isNone then ["お名前"] else [])
  ++ (if d.birthdate.isNone then ["生年月日"] else [])
  ++ (if d.gender.isNone then ["性別"] else [])

/-- One iteration of the webhook event loop for a text message. -/
def handleEvent (limited : Bool) (st : Option UserState) (raw gpt diagNum : String) :
    HandlerResult :=
  -- レート制限チェック (lines 342–346): reply and continue, before the state read
  if limited then { sends := [rateLimitReplyMsg], update := none, gptCalls := 0 }
  else match st with
  -- state read failed (lines 351–354)
  | none => { sends := [systemErrorMsg], update := none, gptCalls := 0 }
  | some s =>
    let text := jsTrim raw
    -- セッション終了チェック (lines 366–369)
    if s.session_closed then noopResult
    -- 特別プレゼント: reply left to the LINE auto-response, credits → 0.5 (lines 372–389)
    -- (the source literals 0.5 and 0.3 are written mkRat 5 10 and mkRat 3 10)
    else if text = "特別プレゼント" ∧ s.extra_credits = 1 then
      { sends := []
        update := some { cond := { line_user_id := true }, extra_credits := some (mkRat 5 10) }
        gptCalls := 0 }
    -- タロット相談内容受付 (lines 392–456)
    else if s.extra_credits = mkRat 5 10 then
      let tarotAns := gpt
      match extractLuckyAdvice tarotAns (s.name.getD "あなた") with
      | some advice =>
        { sends := [premiumTarotMsg tarotAns]
          update := some { cond := { line_user_id := true }, tarot_concern := some (some text),
                           tarot_result := some (some tarotAns), lucky_advice := some (some advice),
                           extra_credits := some (mkRat 3 10) }
          gptCalls := 1 }
      | none =>
        -- `generateLuckyAdvice` is undefined: evaluating the payload throws after the
        -- reply; the outer catch sends the generic error reply (lines 669–676)
        { sends := [premiumTarotMsg tarotAns, systemErrorMsg], update := none,
          gptCalls := 1, crashed := true }
    -- 特別なご案内表示 (lines 459–512)
    else if text = "特別なご案内" ∧ s.extra_credits = mkRat 3 10 then
      { sends := [announcementMsg]
        update := some { cond := { line_user_id := true }, extra_credits := some 0,
                         session_closed := some true }
        gptCalls := 0 }
    else
      -- 自己分析フロー (lines 515–652)
      let data := extractUserData text
      let hasAll := hasAllInput data
      -- 診断開始: handled by the LINE auto-response (lines 519–522)
      if text = "診断開始" ∧ s.extra_credits = 2 then noopResult
      else if hasAll ∧ s.extra_credits = 2 then
        { sends := [premiumReportMsg diagNum (jsInterp data.name) gpt]
          update := some { cond := { line_user_id := true },
                           name := some data.name, birthdate := some data.birthdate,
                           birthtime := some data.birthtime, gender := some data.gender,
                           mbti := some data.mbti, self_analysis_result := some (some gpt),
                           diagnosis_number := some (some diagNum), extra_credits := some 1,
                           session_closed := some false, input_error_count := some 0 }
          gptCalls := 1 }
      else if s.extra_credits = 2 ∧ ¬hasAll ∧ text ≠ "診断開始" then
        let cur := s.input_error_count.getD 0
        -- ①〜⑤形式だが必須項目不足 (lines 611–636)
        if hasNumberFormat text ∧ cur < 2 then
          { sends := [missingFieldsMsg (missingOf data)]
            update := some { cond := { line_user_id := true }, input_error_count := some (cur + 1) }
            gptCalls := 0 }
        -- エラー上限到達 (lines 637–639) / 非フォーム形式 (lines 640–643): no reply
        else noopResult
      -- No action taken (lines 644–652)
      else noopResult

/-! ## Concrete scenarios used by the theorems below -/

/-- A freshly created row (`getOrCreateUserState` insert, lines 821–829):
`extra_credits = 2`, `session_closed = false`, all other columns `null`. -/
def freshState : UserState :=
  { extra_credits := 2, session_closed := false, input_error_count := none,
    name := none, birthdate := none, birthtime := none, gender := none, mbti := none,
    self_analysis_result := none, diagnosis_number := none, tarot_concern := none,
    tarot_result := none, lucky_advice := none }

/-- A complete profile submission. -/
def profileInput : String := "①田中花子\n②1990/01/01\n③14:30\n④INFP\n⑤女性"

/-- A user who has received the profile reading (`extra_credits = 1`). -/
def profileDoneState : UserState := { freshState with extra_credits := 1 }

/-- A closed session (`session_closed = true`, credits exhausted). -/
def closedState : UserState := { freshState with extra_credits := 0, session_closed := true }

/-- The update payload of the 特別プレゼント branch (lines 375–382). -/
def presentPayload : UpdatePayload :=
  { cond := { line_user_id := true }, extra_credits := some (mkRat 5 10) }

/-- A tarot completion containing the 【開運アドバイス】 header (so the
`extractLuckyAdvice` happy path is taken). -/
def tarotGptOut : String :=
  "【今回引かれたカード】\n過去：太陽 - 正位置\n【カードが紡ぐあなたの物語】\n物語です。\n【開運アドバイス】\n🌙 ラッキーカラー：青"

/-- First delivery of 特別プレゼント to a `extra_credits = 1` user. -/
def presentFirstRun : HandlerResult :=
  handleEvent false (some profileDoneState) "特別プレゼント" tarotGptOut "診断番号: 250624/1111"

/-- Second, duplicate delivery of the same message, against the state left by
the first delivery's committed update. -/
def presentSecondRun : HandlerResult :=
  handleEvent false (some (applyUpdate profileDoneState presentPayload)) "特別プレゼント"
    tarotGptOut "診断番号: 250624/1111"

/-- One of two racing invocations that both read `freshState` (each performs
the self-analysis branch on a complete profile). -/
def racingRun : HandlerResult :=
  handleEvent false (some freshState) profileInput "鑑定結果のテキストです。" "診断番号: 250624/2222"

/-- The self-analysis run in which all three `callGPT` attempts failed, so
`callGPT` handed the caller `apologyMsg` as if it were a reading. -/
def failedAnalysisRun : HandlerResult :=
  handleEvent false (some freshState) profileInput apologyMsg "診断番号: 250624/3333"

/-! ## Helper lemmas: extracted values are non-empty trimmed strings -/

theorem jsWs_head_dropWhile {l : List Char} {c : Char} {t : List Char}
    (h : l.dropWhile jsWs = c :: t) : jsWs c = false := by
  induction l with
  | nil => simp at h
  | cons a as ih =>
    rw [List.dropWhile_cons] at h
    by_cases ha : jsWs a
    · rw [if_pos ha] at h; exact ih h
    · rw [if_neg ha] at h
      cases h
      exact Bool.not_eq_true _ ▸ (by simpa using ha)

theorem dropWhile_jsWs_eq_self {l : List Char}
    (h : ∀ c t, l = c :: t → jsWs c = false) : l.dropWhile jsWs = l := by
  cases l with
  | nil => rfl
  | cons a as => exact List.dropWhile_cons_of_neg (by simp [h a as rfl])

theorem stripCaseless_suffix {p v r : List Char} (h : stripCaseless p v = some r) :
    r <:+ v := by
  induction p generalizing v with
  | nil =>
    cases v <;> simp [stripCaseless] at h <;> simp [h]
  | cons x xs ih =>
    cases v with
    | nil => simp [stripCaseless] at h
    | cons c cs =>
      rw [stripCaseless] at h
      split at h
      · exact (ih h).trans (List.suffix_cons c cs)
      · exact absurd h (by simp)

theorem skipOptColon_suffix (v : List Char) : skipOptColon v <:+ v := by
  cases v with
  | nil => simp [skipOptColon]
  | cons c cs =>
    rw [skipOptColon]
    split
    · exact List.suffix_cons c cs
    · exact List.suffix_rfl

theorem firstLabelStrip_suffix {ls : List (List Char)} {v r : List Char}
    (h : firstLabelStrip ls v = some r) : r <:+ v := by
  induction ls with
  | nil => simp [firstLabelStrip] at h
  | cons l ls ih =>
    rw [firstLabelStrip] at h
    split at h
    · cases h; exact stripCaseless_suffix (by assumption)
    · exact ih h

theorem stripLabelText_suffix (v : List Char) : stripLabelText v <:+ v := by
  rw [stripLabelText]
  split
  · exact List.suffix_rfl
  · exact (List.dropWhile_suffix _).trans
      ((skipOptColon_suffix _).trans (firstLabelStrip_suffix (by assumption)))

theorem jsTrimList_prefix_dropWhile (l : List Char) :
    jsTrimList l <+: l.dropWhile jsWs := by
  rw [jsTrimList]
  obtain ⟨s, hs⟩ := List.dropWhile_suffix (l := (l.dropWhile jsWs).reverse) (p := jsWs)
  exact ⟨s.reverse, by rw [← List.reverse_append, hs, List.reverse_reverse]⟩

theorem jsWs_head_jsTrimList {l : List Char} {c : Char} {t : List Char}
    (h : jsTrimList l = c :: t) : jsWs c = false := by
  obtain ⟨u, hu⟩ := jsTrimList_prefix_dropWhile l
  rw [h] at hu
  exact jsWs_head_dropWhile hu.symm

theorem jsTrimList_reverse (l : List Char) :
    (jsTrimList l).reverse = (l.dropWhile jsWs).reverse.dropWhile jsWs := by
  rw [jsTrimList, List.reverse_reverse]

theorem jsWs_last_jsTrimList {l : List Char} {c : Char} {t : List Char}
    (h : (jsTrimList l).reverse = c :: t) : jsWs c = false :=
  jsWs_head_dropWhile (l := (l.dropWhile jsWs).reverse) ((jsTrimList_reverse l) ▸ h)

theorem jsWs_head_stripLabelText {v : List Char} {c : Char} {t : List Char}
    (hv : ∀ c t, v = c :: t → jsWs c = false)
    (h : stripLabelText v = c :: t) : jsWs c = false := by
  rw [stripLabelText] at h
  split at h
  · exact hv c t h
  · exact jsWs_head_dropWhile h

theorem jsTrimList_eq_self {v : List Char}
    (hh : ∀ c t, v = c :: t → jsWs c = false)
    (hl : ∀ c t, v.reverse = c :: t → jsWs c = false) : jsTrimList v = v := by
  rw [jsTrimList, dropWhile_jsWs_eq_self hh, dropWhile_jsWs_eq_self hl,
    List.reverse_reverse]

/-- A `some` value of `fieldValue` is a non-empty string equal to its own
`trim`. -/
theorem fieldValue_trimmed {m : Char} {t s : String} (h : fieldValue m t = some s) :
    s ≠ "" ∧ jsTrim s = s := by
  rw [fieldValue] at h
  rcases hc : captureField m t.toList with _ | cap
  · rw [hc] at h; exact absurd h (by simp)
  rw [hc] at h
  simp only at h
  split at h
  · exact absurd h (by simp)
  rename_i hne
  cases h
  set w := jsTrimList cap with hw
  set v := stripLabelText w with hvdef
  have hwhead : ∀ c t, w = c :: t → jsWs c = false := fun c t hct => jsWs_head_jsTrimList hct
  have hvhead : ∀ c t, v = c :: t → jsWs c = false :=
    fun c t hct => jsWs_head_stripLabelText hwhead hct
  have hvlast : ∀ c t, v.reverse = c :: t → jsWs c = false := by
    intro c t hct
    obtain ⟨u, hu⟩ := (List.reverse_prefix.mpr (stripLabelText_suffix w) : v.reverse <+: w.reverse)
    rw [hct] at hu
    exact jsWs_last_jsTrimList (l := cap) hu.symm
  constructor
  · intro habs
    apply hne
    have : v = [] := congrArg String.toList habs
    simp [this]
  · show jsTrim (String.mk v) = String.mk v
    rw [jsTrim]
    have : (String.mk v).toList = v := rfl
    rw [this, jsTrimList_eq_self hvhead hvlast]

/-! ## Claim theorems -/

/-- C7: on the five-line input ①田中花子／②1990/01/01／③14:30／④INFP／⑤女性 the
Field Extractor returns exactly the five expected values, and it tolerates
the full-width-colon, half-width-colon and colon-less separator styles
between marker and value. -/
theorem C7_extraction_completeness :
    extractUserData profileInput
      = { name := some "田中花子", birthdate := some "1990/01/01", birthtime := some "14:30",
          mbti := some "INFP", gender := some "女性" }
    ∧ extractUserData "①：田中花子\n②：1990/01/01\n③：14:30\n④：INFP\n⑤：女性"
      = { name := some "田中花子", birthdate := some "1990/01/01", birthtime := some "14:30",
          mbti := some "INFP", gender := some "女性" }
    ∧ extractUserData "①:田中花子\n②:1990/01/01\n③:14:30\n④:INFP\n⑤:女性"
      = { name := some "田中花子", birthdate := some "1990/01/01", birthtime := some "14:30",
          mbti := some "INFP", gender := some "女性" }
    ∧ extractUserData "① 田中花子\n② 1990/01/01\n③ 14:30\n④ INFP\n⑤ 女性"
      = { name := some "田中花子", birthdate := some "1990/01/01", birthtime := some "14:30",
          mbti := some "INFP", gender := some "女性" } := by
  decide

/-- C9 counterexample: the user-supplied concern is interpolated into the
system-role (instruction) component of the tarot generation request
(`TAROT_MESSAGES`, line 264), refuting "only in the user-data component". -/
theorem C9_cx_concern_in_system_prompt :
    "恋の悩み".toList <:+: (tarotSystemContent "恋の悩み").toList :=
  ⟨tarotSystemPre.toList, tarotSystemSuf.toList, rfl⟩

/-- C9 (amended): the concern and name do appear in the user-data component
as the claim says, but the tarot request additionally interpolates the
concern into its system instruction component, and the self-analysis request
interpolates the user-supplied name into its system instruction component. -/
theorem C9_user_text_in_both_components (c : String) (d : ExtractedData) (dp : ChatMessage) :
    TAROT_MESSAGES c dp
      = [dp, { role := "system", content := tarotSystemContent c },
         { role := "user", content := "相談内容：" ++ c }]
    ∧ c.toList <:+: (tarotSystemContent c).toList
    ∧ SELF_ANALYSIS_MESSAGES d dp
      = [dp, { role := "system", content := selfAnalysisSystemContent (jsInterp d.name) },
         { role := "user", content := selfAnalysisUserContent d }]
    ∧ (jsInterp d.name).toList <:+: (selfAnalysisSystemContent (jsInterp d.name)).toList :=
  ⟨rfl, ⟨tarotSystemPre.toList, tarotSystemSuf.toList, rfl⟩, rfl,
   ⟨selfAnalysisSystemPre.toList, selfAnalysisSystemSuf.toList, rfl⟩⟩

/-- C1: when all three generation attempts fail, `callGPT` hands the caller
the fixed apology string as if it were a reading; the self-analysis branch
then advances `extra_credits` from 2 to 1 and persists the apology as
`self_analysis_result` in the same committed update, while sending the user
one message containing the apology.  This contradicts the claim that the
phase stays AwaitingProfile and nothing is persisted. -/
theorem C1_failure_still_advances_phase :
    callGPT (fun _ => .failure "Request failed with status code 500")
      = (apologyMsg, 3, [1000, 2000])
    ∧ failedAnalysisRun.update
      = some { cond := { line_user_id := true },
               name := some (some "田中花子"), birthdate := some (some "1990/01/01"),
               birthtime := some (some "14:30"), gender := some (some "女性"),
               mbti := some (some "INFP"), self_analysis_result := some (some apologyMsg),
               diagnosis_number := some (some "診断番号: 250624/3333"),
               extra_credits := some 1, session_closed := some false,
               input_error_count := some 0 }
    ∧ failedAnalysisRun.sends.length = 1
    ∧ apologyMsg.toList <:+: (failedAnalysisRun.sends.headD "").toList := by
  decide

/-- C2: there is no idempotency guard.  Delivering 特別プレゼント twice to a
user whose `extra_credits` is 1 mutates state twice: the first delivery
commits the credits→0.5 update (and sends nothing), and the duplicate
delivery — read back as credits 0.5 — runs the tarot branch: a second
generation call, a second committed update, and an observable reply.
This contradicts "the duplicate is detected and dropped before any side
effect". -/
theorem C2_duplicate_event_double_mutation :
    presentFirstRun.sends = []
    ∧ presentFirstRun.update = some presentPayload
    ∧ presentSecondRun.gptCalls = 1
    ∧ presentSecondRun.update.isSome = true
    ∧ presentSecondRun.sends.length = 1 := by
  decide

/-- C3: no session mutation is a compare-and-swap on the expected phase.
A handler invocation that read `freshState` with a complete profile performs
one generation call and issues an update whose `WHERE` clause is
`line_user_id` alone (no expected-credits precondition), so of two racing
invocations that both read the same snapshot, the loser also calls the
generator and also commits — contradicting "exactly one transition commits
and the other is a no-op with zero additional generation calls". -/
theorem C3_update_not_phase_conditioned :
    racingRun.gptCalls = 1
    ∧ racingRun.update.map UpdatePayload.cond
      = some { line_user_id := true, expected_extra_credits := none }
    ∧ (∀ s u, (applyUpdate s u).extra_credits = u.extra_credits.getD s.extra_credits) := by
  refine ⟨by decide, by decide, fun s u => rfl⟩

/-- C4 counterexample: a rate-limited message from a user whose session is
closed gets an outbound send (the rate-limit apology, sent before the session
row is even read), refuting "zero outbound sends for every further inbound
message". -/
theorem C4_cx_rate_limited_closed_session_reply :
    (handleEvent true (some closedState) "こんにちは" "" "").sends = [rateLimitReplyMsg] := by
  decide

/-- C4 (amended): once `session_closed = true`, any inbound message that
passes the rate limiter produces zero outbound sends and no update; a
rate-limited message, however, is answered with the rate-limit apology
(that reply happens before the session state is consulted, regardless of the
session row). -/
theorem C4_closed_session_noop (raw g dn : String) (s : UserState)
    (hcl : s.session_closed = true) :
    handleEvent false (some s) raw g dn = noopResult
    ∧ ∀ st, handleEvent true st raw g dn
        = { sends := [rateLimitReplyMsg], update := none, gptCalls := 0 } := by
  constructor
  · simp [handleEvent, hcl]
  · intro st
    rfl

/-- C4 witness: the amended theorem applied to `closedState` and a concrete
message. -/
theorem C4_closed_session_noop_w :
    handleEvent false (some closedState) "ありがとう" "" "" = noopResult :=
  (C4_closed_session_noop "ありがとう" "" "" closedState (by decide)).1

/-- C5 counterexample: in phase ProfileComplete (`extra_credits = 1`) the
exact trigger phrase 特別プレゼント produces zero outbound messages from the
server (the instructions prompt is delegated to the LINE auto-response),
refuting "the machine sends an instructions prompt". -/
theorem C5_cx_no_instructions_prompt_sent :
    (handleEvent false (some profileDoneState) "特別プレゼント" "" "").sends = [] := by
  decide

/-- C5 (amended): with `extra_credits = 1` and an open session, a message
that trims to exactly 特別プレゼント commits the credits→0.5 transition
(AwaitingConcern) while sending nothing — the instructions prompt is a LINE
auto-response, not a server send — and any other message produces zero
outbound messages, no update and no generation call. -/
theorem C5_trigger_advances_silently (raw g dn : String) (s : UserState)
    (h1 : s.extra_credits = 1) (hop : s.session_closed = false) :
    (jsTrim raw = "特別プレゼント" →
      handleEvent false (some s) raw g dn
        = { sends := [], update := some presentPayload, gptCalls := 0 })
    ∧ (jsTrim raw ≠ "特別プレゼント" →
      handleEvent false (some s) raw g dn = noopResult) := by
  have h05 : ¬ ((1 : ℚ) = mkRat 5 10) := by decide
  have h03 : ¬ ((1 : ℚ) = mkRat 3 10) := by decide
  have h2 : ¬ ((1 : ℚ) = 2) := by decide
  constructor
  · intro ht
    simp [handleEvent, h1, hop, ht, presentPayload]
  · intro ht
    simp [handleEvent, h1, hop, ht, h05, h03, h2, noopResult]

/-- C5 witness: the amended theorem applied at a whitespace-padded trigger
message (trimming strips the padding) and at `profileDoneState`. -/
theorem C5_trigger_advances_silently_w :
    handleEvent false (some profileDoneState) "　特別プレゼント　" "" ""
      = { sends := [], update := some presentPayload, gptCalls := 0 } :=
  (C5_trigger_advances_silently "　特別プレゼント　" "" "" profileDoneState
    (by decide) (by decide)).1 (by decide)

/-- C6: in AwaitingProfile (`extra_credits = 2`, open session), a message
whose trimmed text contains a numbered marker but whose extracted data lacks
a required field produces, when the stored error count is below the cap of 2,
exactly one itemized missing-fields reply together with an update that only
increments `input_error_count` (so credits/phase and closure are untouched);
at or above the cap it produces no reply, no update and no generation
call. -/
theorem C6_missing_fields_and_error_cap (raw g dn : String) (s : UserState)
    (hcred : s.extra_credits = 2) (hop : s.session_closed = false)
    (hmark : hasNumberFormat (jsTrim raw) = true)
    (hmiss : hasAllInput (extractUserData (jsTrim raw)) = false) :
    (s.input_error_count.getD 0 < 2 →
      handleEvent false (some s) raw g dn
        = { sends := [missingFieldsMsg (missingOf (extractUserData (jsTrim raw)))],
            update := some { cond := { line_user_id := true },
                             input_error_count := some (s.input_error_count.getD 0 + 1) },
            gptCalls := 0 })
    ∧ (2 ≤ s.input_error_count.getD 0 →
      handleEvent false (some s) raw g dn = noopResult)
    ∧ (∀ n,
      (applyUpdate s { cond := { line_user_id := true }, input_error_count := some n
        }).extra_credits = s.extra_credits
      ∧ (applyUpdate s { cond := { line_user_id := true }, input_error_count := some n
        }).session_closed = s.session_closed) := by
  have h1 : ¬ ((2 : ℚ) = 1) := by decide
  have h05 : ¬ ((2 : ℚ) = mkRat 5 10) := by decide
  have h03 : ¬ ((2 : ℚ) = mkRat 3 10) := by decide
  have hshindan : jsTrim raw ≠ "診断開始" := by
    intro h
    rw [h] at hmark
    exact absurd hmark (by decide)
  refine ⟨fun hlt => ?_, fun hge => ?_, fun n => ⟨rfl, rfl⟩⟩
  · simp [handleEvent, hcred, hop, h1, h05, h03, hshindan, hmiss, hmark, hlt]
  · simp [handleEvent, hcred, hop, h1, h05, h03, hshindan, hmiss, hmark,
      Nat.not_lt.mpr hge, noopResult]

/-- C6 witness: the theorem applied to a fresh user submitting a labelled but
gender-less profile. -/
theorem C6_missing_fields_and_error_cap_w :
    handleEvent false (some freshState) "①田中花子\n②1990/01/01" "" ""
      = { sends := [missingFieldsMsg ["性別"]],
          update := some { cond := { line_user_id := true }, input_error_count := some 1 },
          gptCalls := 0 } := by
  have h := (C6_missing_fields_and_error_cap "①田中花子\n②1990/01/01" "" "" freshState
    (by decide) (by decide) (by decide) (by decide)).1 (by decide)
  rw [h]
  decide

/-- Exhaustive description of `callGPT` by the outcomes of the (at most
three) attempts. -/
theorem callGPT_cases (oracle : Nat → GPTOutcome) :
    (∃ c, oracle 1 = .success c ∧ callGPT oracle = (jsTrim c, 1, []))
    ∨ (∃ e c, oracle 1 = .failure e ∧ oracle 2 = .success c
        ∧ callGPT oracle = (jsTrim c, 2, [1000]))
    ∨ (∃ e e' c, oracle 1 = .failure e ∧ oracle 2 = .failure e'
        ∧ oracle 3 = .success c ∧ callGPT oracle = (jsTrim c, 3, [1000, 2000]))
    ∨ (∃ e e' e'', oracle 1 = .failure e ∧ oracle 2 = .failure e'
        ∧ oracle 3 = .failure e'' ∧ callGPT oracle = (apologyMsg, 3, [1000, 2000])) := by
  rcases h1 : oracle 1 with c1 | e1
  · exact Or.inl ⟨c1, rfl, by simp [callGPT, callGPTRun, maxRetries, h1]⟩
  rcases h2 : oracle 2 with c2 | e2
  · exact Or.inr (Or.inl ⟨e1, c2, rfl, rfl,
      by simp [callGPT, callGPTRun, maxRetries, h1, h2, backoffDelay]⟩)
  rcases h3 : oracle 3 with c3 | e3
  · exact Or.inr (Or.inr (Or.inl ⟨e1, e2, c3, rfl, rfl, rfl,
      by simp [callGPT, callGPTRun, maxRetries, h1, h2, h3, backoffDelay]⟩))
  · exact Or.inr (Or.inr (Or.inr ⟨e1, e2, e3, rfl, rfl, rfl,
      by simp [callGPT, callGPTRun, maxRetries, h1, h2, h3, backoffDelay]⟩))

/-- C8 counterexample: the back-off schedule after failures is the fixed list
[1000ms, 2000ms] — `backoffDelay` is a function of the attempt number alone
(1000·2^(k−1) capped at 5000) and no randomness enters it, so the claimed
jitter does not exist; two runs with different upstream errors sleep exactly
the same schedule. -/
theorem C8_cx_fixed_backoff_no_jitter :
    (callGPT fun _ => .failure "timeout of 30000ms exceeded").2.2 = [1000, 2000]
    ∧ (callGPT fun _ => .failure "Request failed with status code 500").2.2 = [1000, 2000]
    ∧ backoffDelay 1 = 1000 ∧ backoffDelay 2 = 2000 ∧ backoffDelay 3 = 4000 := by
  decide

/-- C8 (amended): `callGPT` makes at most 3 attempts with a hard 30-second
per-call timeout and deterministic exponential back-off (no jitter); when
every attempt fails it returns exactly `(apologyMsg, 3, [1000, 2000])`, and
in every case the returned string is either the fixed generic apology or the
trimmed completion of a successful attempt — never an upstream error
string. -/
theorem C8_retry_contract (oracle : Nat → GPTOutcome) :
    gptTimeoutMs = 30000 ∧ maxRetries = 3
    ∧ (callGPT oracle).2.1 ≤ maxRetries
    ∧ ((∀ k, (oracle k).isFailure = true) → callGPT oracle = (apologyMsg, 3, [1000, 2000]))
    ∧ ((callGPT oracle).1 = apologyMsg
      ∨ ∃ k c, 1 ≤ k ∧ k ≤ maxRetries ∧ oracle k = .success c
          ∧ (callGPT oracle).1 = jsTrim c) := by
  refine ⟨rfl, rfl, ?_, ?_, ?_⟩
  · rcases callGPT_cases oracle with ⟨c, _, h⟩ | ⟨e, c, _, _, h⟩ |
      ⟨e, e', c, _, _, _, h⟩ | ⟨e, e', e'', _, _, _, h⟩ <;> simp [h, maxRetries]
  · intro hall
    rcases callGPT_cases oracle with ⟨c, hc, h⟩ | ⟨e, c, _, hc, h⟩ |
      ⟨e, e', c, _, _, hc, h⟩ | ⟨e, e', e'', _, _, _, h⟩
    · have := hall 1; rw [hc] at this; exact absurd this (by simp [GPTOutcome.isFailure])
    · have := hall 2; rw [hc] at this; exact absurd this (by simp [GPTOutcome.isFailure])
    · have := hall 3; rw [hc] at this; exact absurd this (by simp [GPTOutcome.isFailure])
    · exact h
  · rcases callGPT_cases oracle with ⟨c, hc, h⟩ | ⟨e, c, _, hc, h⟩ |
      ⟨e, e', c, _, _, hc, h⟩ | ⟨e, e', e'', _, _, _, h⟩
    · exact Or.inr ⟨1, c, by omega, by simp [maxRetries], hc, by rw [h]⟩
    · exact Or.inr ⟨2, c, by omega, by simp [maxRetries], hc, by rw [h]⟩
    · exact Or.inr ⟨3, c, by omega, by simp [maxRetries], hc, by rw [h]⟩
    · exact Or.inl (by rw [h])

/-- C8 witness: the amended contract applied to an oracle whose attempts all
time out. -/
theorem C8_retry_contract_w :
    callGPT (fun _ => .failure "ETIMEDOUT") = (apologyMsg, 3, [1000, 2000]) :=
  (C8_retry_contract (fun _ => .failure "ETIMEDOUT")).2.2.2.1 (fun _ => rfl)

/-- C10 counterexample: for `"①\n②1990/01/01"` the ① marker is followed by an
empty value (its line ends immediately), yet `name` is not `null`: the greedy
`\s*` eats the newline and the capture takes the next line, so the extractor
returns `name = "②1990/01/01"`. -/
theorem C10_cx_empty_marker_value_not_null :
    (extractUserData "①\n②1990/01/01").name = some "②1990/01/01" := by
  decide

/-- C10 (amended): `extractUserData` always returns, without throwing, a
record with exactly the five keys, each `null` or a non-empty string equal to
its own trim; and a marker followed (after the optional colon) by nothing but
whitespace up to the end of the input yields `null` — but an empty-valued
marker whose line is followed by later non-whitespace text instead captures
that following text (see the counterexample), so only the
whitespace-to-end case is guaranteed to count as missing. -/
theorem C10_extractor_shape (t : String) :
    extractUserData t
      = { name := fieldValue '①' t, birthdate := fieldValue '②' t,
          birthtime := fieldValue '③' t, mbti := fieldValue '④' t,
          gender := fieldValue '⑤' t }
    ∧ (∀ s, (extractUserData t).name = some s → s ≠ "" ∧ jsTrim s = s)
    ∧ (∀ s, (extractUserData t).birthdate = some s → s ≠ "" ∧ jsTrim s = s)
    ∧ (∀ s, (extractUserData t).birthtime = some s → s ≠ "" ∧ jsTrim s = s)
    ∧ (∀ s, (extractUserData t).mbti = some s → s ≠ "" ∧ jsTrim s = s)
    ∧ (∀ s, (extractUserData t).gender = some s → s ≠ "" ∧ jsTrim s = s)
    ∧ (∀ m r, afterChar m t.toList = some r → (∀ c ∈ skipOptColon r, jsWs c = true) →
        fieldValue m t = none) := by
  refine ⟨rfl, fun s hs => fieldValue_trimmed hs, fun s hs => fieldValue_trimmed hs,
    fun s hs => fieldValue_trimmed hs, fun s hs => fieldValue_trimmed hs,
    fun s hs => fieldValue_trimmed hs, ?_⟩
  intro m r hr hws
  have hdrop : (skipOptColon r).dropWhile jsWs = [] :=
    List.dropWhile_eq_nil_iff.mpr hws
  have hcap : captureField m t.toList = some [] := by
    rw [captureField, hr]
    simp only [Option.map_some']
    rw [hdrop]
    rfl
  unfold fieldValue
  rw [hcap]
  decide

/-- C10 witness: the amended theorem applied to the input `"①  "` (marker
followed by whitespace only), whose name field is `null`. -/
theorem C10_extractor_shape_w :
    fieldValue '①' "①  " = none :=
  (C10_extractor_shape "①  ").2.2.2.2.2.2 '①' [' ', ' '] (by decide) (by decide)
